import Mathlib

/-!
Shallow embedding of the three scripts of the repository
(config.py, news_agent.py, 02_chatbot.py) together with proofs about
the conversation-history management of the chat surface, the CLI
read-eval loop of the news script, and the startup configuration code.

External collaborators (the remote model provider, the agent runtime
behind Runner.run / Runner.run_sync, the chainlit UI transport) are
modelled as parameters: a shim of type `List Message → Except Unit String`
for the chat path and `String → Except Unit String` for the CLI path,
where `Except.error ()` models the RemoteInvocationFailed condition
(any exception raised by the remote invocation).
-/

namespace AgentsSDK

/-- Role tag of a chat message, from the dict shape
`\x7b"role": ..., "content": ...\x7d` used in 02_chatbot.py. -/
inductive Role where
  | user
  | assistant
deriving DecidableEq, Repr

/-- A role-tagged message appended to the conversation history. -/
structure Message where
  role : Role
  content : String
deriving DecidableEq, Repr

/-- Expected role sequence of `n` completed chat turns:
user, assistant, user, assistant, ... (length `2 * n`). -/
def altUA : Nat → List Role
  | 0 => []
  | n + 1 => Role.user :: Role.assistant :: altUA n

lemma altUA_length (n : Nat) : (altUA n).length = 2 * n := by
  induction n with
  | zero => rfl
  | succ k ih => simp [altUA, ih]; omega

/-- The per-session key-value store `cl.user_session` of chainlit:
string keys (the scripts only use the key "history") to stored
conversation histories. Each session owns one such store, so facts
proved for an arbitrary store hold for every session key. -/
abbrev UserSessionStore := String → Option (List Message)

/-- Model of `cl.user_session.set(key, value)`. -/
def user_session_set (store : UserSessionStore) (key : String)
    (value : List Message) : UserSessionStore :=
  fun k => if k = key then some value else store k

/-- Model of `cl.user_session.get(key, default)`. -/
def user_session_get (store : UserSessionStore) (key : String)
    (default : List Message) : List Message :=
  (store key).getD default

/-- Model of the `start_chat` handler of 02_chatbot.py: stores an empty
history under the key "history" and sends one greeting message.
Returns the updated store and the list of messages sent to the UI. -/
def start_chat (store : UserSessionStore) : UserSessionStore × List String :=
  (user_session_set store "history" [],
   ["Hello! I am your assistant. How can I help you today?"])

/-- Result of one `handle_msg` call of 02_chatbot.py: the session store
after the handler, the history that was passed to `Runner.run`, the
messages the handler sent to the UI, and whether an exception escaped
the handler. -/
structure ChatOutcome where
  store : UserSessionStore
  shimInput : List Message
  emitted : List String
  raised : Bool

/-- Model of the `handle_msg` handler of 02_chatbot.py.

Python semantics captured here: `history = cl.user_session.get("history", [])`
returns the stored list by reference (or a fresh default list when the key
is unset); `history.append(...)` mutates that list in place, so when the
key was already set the stored value already contains the new user message
before `Runner.run` is awaited. When the run raises, the handler has no
try/except: nothing is sent, `cl.user_session.set` is not executed, and
the exception escapes — but the stored list (when the key was set) has
already been mutated to include the user message. On success the handler
appends the assistant message, stores the list and sends the output. -/
def handle_msg (shim : List Message → Except Unit String)
    (store : UserSessionStore) (content : String) : ChatOutcome :=
  let h1 := user_session_get store "history" [] ++ [Message.mk Role.user content]
  match shim h1 with
  | Except.error _ =>
      { store := match store "history" with
                 | some _ => user_session_set store "history" h1
                 | none => store
        shimInput := h1
        emitted := []
        raised := true }
  | Except.ok out =>
      { store := user_session_set store "history"
                   (h1 ++ [Message.mk Role.assistant out])
        shimInput := h1
        emitted := [out]
        raised := false }

/-- A chat session: `handle_msg` applied to each user input in order
(the chainlit framework catches an escaped exception and keeps serving
the session). Returns the final store and, chronologically, every
history that was passed to `Runner.run`. -/
def chat_session (shim : List Message → Except Unit String)
    (store : UserSessionStore) : List String → UserSessionStore × List (List Message)
  | [] => (store, [])
  | c :: cs =>
      let r := handle_msg shim store c
      let rest := chat_session shim r.store cs
      (rest.1, r.shimInput :: rest.2)

/-- Stub shim that always succeeds, returning `f` of the input history. -/
def shim_ok (f : List Message → String) : List Message → Except Unit String :=
  fun h => Except.ok (f h)

/-- Stub shim that always raises RemoteInvocationFailed. -/
def shim_err : List Message → Except Unit String :=
  fun _ => Except.error ()

lemma user_session_get_set (store : UserSessionStore) (key : String)
    (v d : List Message) :
    user_session_get (user_session_set store key v) key d = v := by
  simp [user_session_get, user_session_set]

lemma handle_msg_ok_store (f : List Message → String)
    (store : UserSessionStore) (c : String) :
    (handle_msg (shim_ok f) store c).store = user_session_set store "history"
      ((user_session_get store "history" [] ++ [Message.mk Role.user c]) ++
        [Message.mk Role.assistant
          (f (user_session_get store "history" [] ++ [Message.mk Role.user c]))] ) := by
  rfl

lemma handle_msg_ok_shimInput (f : List Message → String)
    (store : UserSessionStore) (c : String) :
    (handle_msg (shim_ok f) store c).shimInput =
      user_session_get store "history" [] ++ [Message.mk Role.user c] := by
  rfl

/-- After a run of successful turns, the stored history roles are the
starting roles followed by user/assistant pairs, one per turn. -/
lemma chat_session_ok_roles (f : List Message → String) :
    ∀ (cs : List String) (store : UserSessionStore),
      (user_session_get (chat_session (shim_ok f) store cs).1 "history" []).map
          Message.role =
        (user_session_get store "history" []).map Message.role ++ altUA cs.length := by
  intro cs
  induction cs with
  | nil => intro store; simp [chat_session, altUA]
  | cons c cs ih =>
      intro store
      show (user_session_get
          (chat_session (shim_ok f) (handle_msg (shim_ok f) store c).store cs).1
          "history" []).map Message.role = _
      rw [ih, handle_msg_ok_store, user_session_get_set]
      simp [altUA]

/-- Every history passed to the shim during a run of successful turns
ends with a user message. -/
lemma chat_session_ok_inputs (f : List Message → String) :
    ∀ (cs : List String) (store : UserSessionStore),
      ∀ inp ∈ (chat_session (shim_ok f) store cs).2,
        (inp.map Message.role).getLast? = some Role.user := by
  intro cs
  induction cs with
  | nil => intro store inp hin; simp [chat_session] at hin
  | cons c cs ih =>
      intro store inp hin
      simp only [chat_session, List.mem_cons] at hin
      rcases hin with h | h
      · subst h
        rw [handle_msg_ok_shimInput]
        simp
      · exact ih _ inp h

/-- C2: with every shim call succeeding, a chat session of N user
messages starting from a freshly initialized session leaves a
ConversationHistory of length 2N whose roles strictly alternate
user/assistant starting with user, and every history passed to the
shim has a user message as its most recent entry. -/
theorem C2_alternation (f : List Message → String)
    (store : UserSessionStore) (cs : List String) :
    (user_session_get (chat_session (shim_ok f) (start_chat store).1 cs).1
        "history" []).length = 2 * cs.length ∧
    (user_session_get (chat_session (shim_ok f) (start_chat store).1 cs).1
        "history" []).map Message.role = altUA cs.length ∧
    ∀ inp ∈ (chat_session (shim_ok f) (start_chat store).1 cs).2,
      (inp.map Message.role).getLast? = some Role.user := by
  have hroles := chat_session_ok_roles f cs (start_chat store).1
  have hbase : user_session_get (start_chat store).1 "history" [] = [] := by
    simp [start_chat, user_session_get_set]
  rw [hbase] at hroles
  simp only [List.map_nil, List.nil_append] at hroles
  refine ⟨?_, hroles, chat_session_ok_inputs f cs (start_chat store).1⟩
  have := congrArg List.length hroles
  simpa [altUA_length] using this

/-- C1 counterexample: when the shim call raises, `handle_msg` sends no
error artifact to the caller-visible channel — it sends nothing at all,
and the exception escapes the handler. -/
theorem C1_counterexample :
    (handle_msg shim_err (fun _ => none) "hi").emitted = [] ∧
    (handle_msg shim_err (fun _ => none) "hi").raised = true :=
  ⟨rfl, rfl⟩

/-- C1 amended: on RemoteInvocationFailed the handler emits nothing
(the exception escapes to the framework rather than the handler
surfacing an error artifact), but it does not append an assistant
message: after the failed Nth turn the stored history has length
2(N-1)+1 with the user message retained, and the (N+1)th turn proceeds
normally from that state, appending the new user message and the
assistant reply. -/
theorem C1_amended (store : UserSessionStore) (h : List Message) (k : Nat)
    (hs : store "history" = some h) (hk : h.length = 2 * k)
    (c c' : String) (f : List Message → String) :
    (handle_msg shim_err store c).store "history" =
      some (h ++ [Message.mk Role.user c]) ∧
    (h ++ [Message.mk Role.user c]).length = 2 * k + 1 ∧
    (handle_msg shim_err store c).emitted = [] ∧
    (handle_msg shim_err store c).raised = true ∧
    user_session_get
        (handle_msg (shim_ok f) (handle_msg shim_err store c).store c').store
        "history" [] =
      ((h ++ [Message.mk Role.user c]) ++ [Message.mk Role.user c']) ++
        [Message.mk Role.assistant
          (f ((h ++ [Message.mk Role.user c]) ++ [Message.mk Role.user c']))] ∧
    (user_session_get
        (handle_msg (shim_ok f) (handle_msg shim_err store c).store c').store
        "history" []).length = 2 * k + 3 := by
  have hget : user_session_get store "history" [] = h := by
    simp [user_session_get, hs]
  have hstore1 : (handle_msg shim_err store c).store "history" =
      some (h ++ [Message.mk Role.user c]) := by
    simp only [handle_msg, shim_err, hs, hget, user_session_set]
    rfl
  refine ⟨hstore1, by simp [hk], rfl, rfl, ?_, ?_⟩
  · rw [handle_msg_ok_store, user_session_get_set]
    have : user_session_get (handle_msg shim_err store c).store "history" [] =
        h ++ [Message.mk Role.user c] := by
      simp [user_session_get, hstore1]
    rw [this]
  · rw [handle_msg_ok_store, user_session_get_set]
    have : user_session_get (handle_msg shim_err store c).store "history" [] =
        h ++ [Message.mk Role.user c] := by
      simp [user_session_get, hstore1]
    rw [this]
    simp [hk]

/-- Witness for C1 amended at a concrete failed first turn. -/
theorem C1_amended_witness :
    ((fun k => if k = "history" then some [] else none) :
        UserSessionStore) "history" = some [] ∧
    ([] : List Message).length = 2 * 0 ∧
    (handle_msg shim_err
        (fun k => if k = "history" then some [] else none) "a").store "history" =
      some [Message.mk Role.user "a"] :=
  ⟨by simp, rfl,
    (C1_amended (fun k => if k = "history" then some [] else none) [] 0
      (by simp) rfl "a" "b" (fun _ => "r")).1⟩

/-- C7: session-start initialization is idempotent: after running
`start_chat` once or twice from any prior store state (any leaked
messages), the stored history under the key "history" is empty, and a
second `start_chat` leaves the store exactly as the first did. -/
theorem C7_idempotent_init (store : UserSessionStore) :
    user_session_get (start_chat store).1 "history" [] = [] ∧
    user_session_get (start_chat (start_chat store).1).1 "history" [] = [] ∧
    (start_chat (start_chat store).1).1 = (start_chat store).1 := by
  refine ⟨user_session_get_set .., user_session_get_set .., funext fun k => ?_⟩
  by_cases hk : k = "history" <;> simp [start_chat, user_session_set, hk]

/-! CLI entry surface of news_agent.py: an unconditional while loop that
reads one line per iteration, breaks on a case-insensitive sentinel, and
otherwise calls `Runner.run_sync(news_agent, query)` and prints the
result. The loop body has no try/except. -/

/-- How a run of the CLI loop on a finite stdin script ends.
`exited` models the `break` on the sentinel, after which the script ends
with exit code 0; `crashed` models an exception from `Runner.run_sync`
escaping the loop (no handler exists) and terminating the process
abnormally; `needMoreInput` models the loop blocking on a further
`input()` after the given lines are consumed. -/
inductive CliOutcome where
  | exited
  | crashed
  | needMoreInput
deriving DecidableEq, Repr

/-- Observable trace of a CLI-loop run: the queries passed to
`Runner.run_sync` in order, the lines printed by `print`, and how the
run ended. -/
structure CliTrace where
  invocations : List String
  printed : List String
  outcome : CliOutcome
deriving DecidableEq, Repr

/-- Model of the Python string method `lower()`: lowercase each
character (faithful on the ASCII inputs this loop compares). -/
def pyLower (s : String) : String := String.mk (s.data.map Char.toLower)

/-- The separator printed after each result: `"=" * 50`. -/
def sep50 : String := String.mk (List.replicate 50 '=')

/-- Model of the while loop of news_agent.py over a finite list of input
lines. Sentinel test is `query.lower() == "exit"` (case fold, no
trimming). On success the three print calls produce the line blocks
`"\nResult:"`, the final output, and `"\n" ++ sep50 ++ "\n"`, i.e. the
printed lines `["", "Result:", out, "", sep50, ""]`. On an exception
from `run_sync` the loop terminates abnormally with nothing printed for
that iteration. The `input()` prompt is written without a newline and is
not part of the printed lines. -/
def cli_loop (run_sync : String → Except Unit String) :
    List String → CliTrace
  | [] => { invocations := [], printed := [], outcome := CliOutcome.needMoreInput }
  | query :: rest =>
      if pyLower query = "exit" then
        { invocations := [], printed := [], outcome := CliOutcome.exited }
      else
        match run_sync query with
        | Except.error _ =>
            { invocations := [query], printed := [], outcome := CliOutcome.crashed }
        | Except.ok out =>
            let t := cli_loop run_sync rest
            { invocations := query :: t.invocations
              printed := ["", "Result:", out, "", sep50, ""] ++ t.printed
              outcome := t.outcome }

lemma cli_loop_exit (run_sync : String → Except Unit String)
    (q : String) (rest : List String) (hq : pyLower q = "exit") :
    cli_loop run_sync (q :: rest) =
      { invocations := [], printed := [], outcome := CliOutcome.exited } := by
  simp [cli_loop, hq]

lemma cli_loop_err (run_sync : String → Except Unit String)
    (q : String) (rest : List String) (hq : ¬ pyLower q = "exit")
    (h : run_sync q = Except.error ()) :
    cli_loop run_sync (q :: rest) =
      { invocations := [q], printed := [], outcome := CliOutcome.crashed } := by
  simp [cli_loop, hq, h]

lemma cli_loop_ok (run_sync : String → Except Unit String)
    (q : String) (rest : List String) (out : String)
    (hq : ¬ pyLower q = "exit") (h : run_sync q = Except.ok out) :
    cli_loop run_sync (q :: rest) =
      { invocations := q :: (cli_loop run_sync rest).invocations
        printed := ["", "Result:", out, "", sep50, ""] ++
          (cli_loop run_sync rest).printed
        outcome := (cli_loop run_sync rest).outcome } := by
  simp [cli_loop, hq, h]

/-- C6: any input line that case-insensitively equals "exit" makes the
loop break with no invocation for that line; on input lines
["cats", "exit"] exactly one invocation happens (for "cats") and the
loop exits cleanly. -/
theorem C6_exit_sentinel (run_sync : String → Except Unit String)
    (q : String) (rest : List String) (hq : pyLower q = "exit")
    (f : String → String) :
    cli_loop run_sync (q :: rest) =
      { invocations := [], printed := [], outcome := CliOutcome.exited } ∧
    (cli_loop (fun s => Except.ok (f s)) ["cats", "exit"]).invocations =
      ["cats"] ∧
    (cli_loop (fun s => Except.ok (f s)) ["cats", "exit"]).outcome =
      CliOutcome.exited := by
  have h1 := cli_loop_ok (fun s => Except.ok (f s)) "cats" ["exit"] (f "cats")
    (by decide) rfl
  have h2 := cli_loop_exit (fun s => Except.ok (f s)) "exit" [] (by decide)
  refine ⟨cli_loop_exit run_sync q rest hq, ?_, ?_⟩ <;> rw [h1, h2]

/-- Witness for C6 at the sentinel line "exit". -/
theorem C6_exit_sentinel_witness :
    pyLower "exit" = "exit" ∧
    cli_loop (fun _ => Except.ok "news") ["exit"] =
      { invocations := [], printed := [], outcome := CliOutcome.exited } :=
  ⟨by decide,
    (C6_exit_sentinel (fun _ => Except.ok "news") "exit" [] (by decide)
      (fun _ => "news")).1⟩

/-- C3 counterexample: on inputs ["bad", "good", "exit"] with the shim
failing only on "bad", the loop does not report the error and continue:
it performs exactly one invocation, prints nothing, and the exception
terminates the loop before "good" is ever read. -/
theorem C3_counterexample :
    cli_loop (fun query => if query = "bad" then Except.error ()
        else Except.ok "summary") ["bad", "good", "exit"] =
      { invocations := ["bad"], printed := [], outcome := CliOutcome.crashed } := by
  rfl

/-- C3 amended: the loop body has no exception handler, so on any
non-sentinel line whose invocation raises RemoteInvocationFailed the
loop performs that single invocation, prints nothing, and terminates
abnormally instead of continuing to the next prompt iteration. -/
theorem C3_amended (run_sync : String → Except Unit String)
    (q : String) (rest : List String) (hq : ¬ pyLower q = "exit")
    (h : run_sync q = Except.error ()) :
    cli_loop run_sync (q :: rest) =
      { invocations := [q], printed := [], outcome := CliOutcome.crashed } :=
  cli_loop_err run_sync q rest hq h

/-- Witness for C3 amended at the failing line "bad". -/
theorem C3_amended_witness :
    ¬ pyLower "bad" = "exit" ∧
    ((fun query => if query = "bad" then Except.error ()
        else Except.ok "summary") : String → Except Unit String) "bad" =
      Except.error () ∧
    cli_loop (fun query => if query = "bad" then Except.error ()
        else Except.ok "summary") ["bad", "good", "exit"] =
      { invocations := ["bad"], printed := [], outcome := CliOutcome.crashed } :=
  ⟨by decide, rfl,
    C3_amended (fun query => if query = "bad" then Except.error ()
      else Except.ok "summary") "bad" ["good", "exit"] (by decide) rfl⟩

/-- C8: on a successful non-sentinel line the loop prints an empty line,
the literal line "Result:", the final output text, and a separator line
of exactly 50 equal-sign characters (framed by the surrounding empty
lines of the print calls), before the output of the remaining
iterations. -/
theorem C8_result_block (run_sync : String → Except Unit String)
    (q out : String) (rest : List String)
    (hq : ¬ pyLower q = "exit") (h : run_sync q = Except.ok out) :
    (cli_loop run_sync (q :: rest)).printed =
      ["", "Result:", out, "", sep50, ""] ++ (cli_loop run_sync rest).printed ∧
    sep50.length = 50 ∧
    ∀ ch ∈ sep50.data, ch = '=' := by
  refine ⟨?_, by decide, by decide⟩
  rw [cli_loop_ok run_sync q rest out hq h]

/-- Witness for C8 at the line "cats" with output "news". -/
theorem C8_result_block_witness :
    ¬ pyLower "cats" = "exit" ∧
    ((fun _ => Except.ok "news") : String → Except Unit String) "cats" =
      Except.ok "news" ∧
    (cli_loop (fun _ => Except.ok "news") ["cats"]).printed =
      ["", "Result:", "news", "", sep50, ""] ++
        (cli_loop (fun _ => Except.ok "news") []).printed :=
  ⟨by decide, rfl,
    (C8_result_block (fun _ => Except.ok "news") "cats" "news" [] (by decide)
      rfl).1⟩

/-- C9: the sentinel comparison lowercases but does not trim: "EXIT" and
"Exit" end the loop, while " exit " and "exit " are not sentinels, and
any non-sentinel line is passed verbatim as the query of a shim
invocation. -/
theorem C9_lowercase_no_trim (f : String → String) (q : String)
    (hq : ¬ pyLower q = "exit") :
    cli_loop (fun s => Except.ok (f s)) ["EXIT"] =
      { invocations := [], printed := [], outcome := CliOutcome.exited } ∧
    cli_loop (fun s => Except.ok (f s)) ["Exit"] =
      { invocations := [], printed := [], outcome := CliOutcome.exited } ∧
    ¬ pyLower " exit " = "exit" ∧
    ¬ pyLower "exit " = "exit" ∧
    (cli_loop (fun s => Except.ok (f s)) [q, "exit"]).invocations = [q] ∧
    (cli_loop (fun s => Except.ok (f s)) [q, "exit"]).outcome =
      CliOutcome.exited := by
  have h1 := cli_loop_ok (fun s => Except.ok (f s)) q ["exit"] (f q) hq rfl
  have h2 := cli_loop_exit (fun s => Except.ok (f s)) "exit" [] (by decide)
  refine ⟨cli_loop_exit _ "EXIT" [] (by decide),
    cli_loop_exit _ "Exit" [] (by decide), by decide, by decide, ?_, ?_⟩ <;>
    rw [h1, h2]

/-- Witness for C9 at the untrimmed line " exit ". -/
theorem C9_lowercase_no_trim_witness :
    ¬ pyLower " exit " = "exit" ∧
    (cli_loop (fun s => Except.ok ("news on " ++ s)) [" exit ", "exit"]).invocations =
      [" exit "] :=
  ⟨by decide,
    (C9_lowercase_no_trim (fun s => "news on " ++ s) " exit "
      (by decide)).2.2.2.2.1⟩

/-! Configuration and startup code of the three scripts. The process
environment and the optional .env file on disk are inputs; `os.getenv`
reads only the process environment, while `load_dotenv()` (called by
news_agent.py and 02_chatbot.py, but not by config.py) first merges the
.env file into the environment without overriding variables already
present. -/

/-- A process environment or a .env file: variable name to value. -/
abbrev Env := String → Option String

/-- Python truthiness of an `os.getenv` result: `not s` holds for
`None` and for the empty string. -/
def pyFalsyStr : Option String → Bool
  | none => true
  | some s => s == ""

/-- Model of `dotenv.load_dotenv()` with default arguments: variables
from the .env file are added to the process environment only where the
process environment does not already define them. -/
def load_dotenv (procEnv : Env) (file : Env) : Env :=
  fun k =>
    match procEnv k with
    | some v => some v
    | none => file k

/-- The OpenAI-compatible client object: credential and base endpoint
URL, as constructed by `AsyncOpenAI(api_key=..., base_url=...)`. -/
structure ProviderBinding where
  api_key : Option String
  base_url : String
deriving DecidableEq, Repr

/-- The Gemini-compatible endpoint constant used by config.py and
02_chatbot.py. -/
def gemini_base_url : String :=
  "https://generativelanguage.googleapis.com/v1beta/openai/"

/-- Model of `OpenAIChatCompletionsModel(model=..., openai_client=...)`. -/
structure ModelAdapter where
  model : String
  openai_client : ProviderBinding
deriving DecidableEq, Repr

/-- Model of the library `RunConfig` as the scripts construct it. -/
structure RunConfig where
  model : ModelAdapter
  model_provider : ProviderBinding
  tracing_disabled : Bool
deriving DecidableEq, Repr

/-- Tool handles attached to an agent (news_agent.py uses
`WebSearchTool()`). -/
inductive ToolHandle where
  | webSearchTool
deriving DecidableEq, Repr

/-- Model of the library `Agent` as the scripts construct it. -/
structure Agent where
  name : String
  instructions : String
  model : Option ModelAdapter
  tools : List ToolHandle
deriving DecidableEq, Repr

/-- The module-level objects config.py builds when the credential check
passes. -/
structure ConfigModule where
  external_client : ProviderBinding
  model : ModelAdapter
  config : RunConfig
deriving DecidableEq, Repr

/-- Model of running config.py: `GOOGLE_API_KEY = os.getenv(...)` with
no preceding `load_dotenv()` call (the `file` argument is therefore
never consulted), a fatal `ValueError` when the key is missing or
empty, then construction of the client, model and run configuration. -/
def config_startup (procEnv : Env) (_file : Env) : Except String ConfigModule :=
  let GOOGLE_API_KEY := procEnv "GOOGLE_API_KEY"
  if pyFalsyStr GOOGLE_API_KEY then
    Except.error "GOOGLE_API_KEY is not set. Please check your .env file."
  else
    let external_client : ProviderBinding :=
      { api_key := GOOGLE_API_KEY, base_url := gemini_base_url }
    let model : ModelAdapter :=
      { model := "gemini-2.0-flash", openai_client := external_client }
    Except.ok
      { external_client := external_client
        model := model
        config := { model := model
                    model_provider := external_client
                    tracing_disabled := true } }

/-- The `news_agent` object of news_agent.py. -/
def news_agent : Agent :=
  { name := "News Agent"
    instructions := "\n    You are a news agent that can search the web for the latest news on the given topic.\n    Compile the information you find into a single paragraph concise summary. No markdown, just plain text.\n    "
    model := none
    tools := [ToolHandle.webSearchTool] }

/-- Model of the startup portion of news_agent.py: `load_dotenv()`,
`api_key = os.getenv("OPENAI_API_KEY")`, a fatal `ValueError` when the
key is missing or empty, then construction of the agent (the key itself
is never used again by the script). -/
def news_agent_startup (procEnv : Env) (file : Env) : Except String Agent :=
  let env := load_dotenv procEnv file
  let api_key := env "OPENAI_API_KEY"
  if pyFalsyStr api_key then
    Except.error "OPENAI_API_KEY environment variable not set."
  else
    Except.ok news_agent

/-- The provider of 02_chatbot.py: `AsyncOpenAI(api_key=os.getenv("Google_API_KEY"), ...)`
with no check of the result. -/
def chatbot_provider (env : Env) : ProviderBinding :=
  { api_key := env "Google_API_KEY", base_url := gemini_base_url }

/-- The model of 02_chatbot.py. -/
def chatbot_model (env : Env) : ModelAdapter :=
  { model := "gemini-2.5-flash", openai_client := chatbot_provider env }

/-- The run-level config of 02_chatbot.py. -/
def chatbot_config (env : Env) : RunConfig :=
  { model := chatbot_model env
    model_provider := chatbot_provider env
    tracing_disabled := true }

/-- The agent of 02_chatbot.py. -/
def chatbot_agent (env : Env) : Agent :=
  { name := "simple agent"
    instructions := "You are a helpful assistant that can answer user questions."
    model := some (chatbot_model env)
    tools := [] }

/-- The module-level objects 02_chatbot.py builds at import time. -/
structure ChatbotApp where
  provider : ProviderBinding
  model : ModelAdapter
  config : RunConfig
  agent : Agent
deriving DecidableEq, Repr

/-- Model of the module-level startup of 02_chatbot.py: `load_dotenv()`
followed by unconditional construction of provider, model, run config
and agent. The script performs no credential validation: whatever
`os.getenv("Google_API_KEY")` returns (including None or the empty
string) is stored in the provider and startup always succeeds. -/
def chatbot_startup (procEnv : Env) (file : Env) : Except String ChatbotApp :=
  let env := load_dotenv procEnv file
  Except.ok
    { provider := chatbot_provider env
      model := chatbot_model env
      config := chatbot_config env
      agent := chatbot_agent env }

/-- Whether a modelled script startup completed without raising. -/
def startupOk {α : Type} : Except String α → Bool
  | Except.ok _ => true
  | Except.error _ => false

/-- Input argument of a `Runner` invocation: a single query string
(CLI path) or a message history (chat path). -/
inductive RunnerInput where
  | single (query : String)
  | messages (history : List Message)
deriving DecidableEq, Repr

/-- Argument list of one `Runner.run` / `Runner.run_sync` call:
the starting agent, the input, and the optional `run_config` keyword
argument (`none` when the call site omits it). -/
structure RunnerCall where
  starting_agent : Agent
  input : RunnerInput
  run_config : Option RunConfig
deriving DecidableEq, Repr

/-- The call `Runner.run_sync(news_agent, query)` performed by each
iteration of the news_agent.py loop: no `run_config` argument. -/
def news_run_call (query : String) : RunnerCall :=
  { starting_agent := news_agent
    input := RunnerInput.single query
    run_config := none }

/-- The call `Runner.run(starting_agent=agent, input=history,
run_config=config)` performed by `handle_msg` of 02_chatbot.py. -/
def chatbot_run_call (env : Env) (history : List Message) : RunnerCall :=
  { starting_agent := chatbot_agent env
    input := RunnerInput.messages history
    run_config := some (chatbot_config env) }

/-- C4 counterexample: the CLI invocation for the query "cats" is made
without any run configuration — `Runner.run_sync` is called with two
positional arguments and no `run_config`. -/
theorem C4_counterexample : (news_run_call "cats").run_config = none := rfl

/-- C4 amended: the RunConfig is passed to every invocation of the chat
path, but the CLI path passes no run configuration at all: every
`Runner.run_sync` call of news_agent.py omits the `run_config`
argument (news_agent.py never even constructs a RunConfig). -/
theorem C4_amended :
    (∀ (env : Env) (history : List Message),
      (chatbot_run_call env history).run_config = some (chatbot_config env)) ∧
    (∀ query : String, (news_run_call query).run_config = none) :=
  ⟨fun _ _ => rfl, fun _ => rfl⟩

/-- C5 counterexample: 02_chatbot.py starts successfully even when its
required credential is present but empty — the script performs no
credential check, so an invalid credential becomes a runtime failure of
the first invocation rather than a construction-time failure. -/
theorem C5_counterexample :
    startupOk (chatbot_startup
      (fun k => if k = "Google_API_KEY" then some "" else none)
      (fun _ => none)) = true := rfl

/-- C5 amended: config.py and news_agent.py detect a missing or empty
credential at startup and raise before any entry surface is reachable
(config.py from the raw process environment, news_agent.py after
loading the .env file), but 02_chatbot.py performs no credential check
and always starts, storing whatever `os.getenv("Google_API_KEY")`
returned in its provider. -/
theorem C5_amended (procEnv : Env) (file : Env) :
    startupOk (config_startup procEnv file) =
      !pyFalsyStr (procEnv "GOOGLE_API_KEY") ∧
    startupOk (news_agent_startup procEnv file) =
      !pyFalsyStr (load_dotenv procEnv file "OPENAI_API_KEY") ∧
    startupOk (chatbot_startup procEnv file) = true := by
  refine ⟨?_, ?_, rfl⟩
  · unfold config_startup
    cases h : pyFalsyStr (procEnv "GOOGLE_API_KEY") <;> simp [h, startupOk]
  · unfold news_agent_startup
    cases h : pyFalsyStr (load_dotenv procEnv file "OPENAI_API_KEY") <;>
      simp [h, startupOk]

/-- C10: config.py reads only the process environment: its result does
not depend on the .env file at all, it fails exactly when
GOOGLE_API_KEY is absent or empty in the process environment, and in
particular it still raises when the process environment lacks the key
but the .env file on disk defines it. -/
theorem C10_env_only (procEnv : Env) (file file' : Env) :
    config_startup procEnv file = config_startup procEnv file' ∧
    (startupOk (config_startup procEnv file) = false ↔
      procEnv "GOOGLE_API_KEY" = none ∨ procEnv "GOOGLE_API_KEY" = some "") ∧
    startupOk (config_startup (fun _ => none)
      (fun k => if k = "GOOGLE_API_KEY" then some "real-key" else none)) =
      false := by
  refine ⟨rfl, ?_, rfl⟩
  unfold config_startup
  cases h : procEnv "GOOGLE_API_KEY" with
  | none => simp [pyFalsyStr, startupOk]
  | some s =>
      cases hs : pyFalsyStr (some s) with
      | true =>
          simp only [hs, if_true, startupOk]
          simp only [pyFalsyStr, beq_iff_eq] at hs
          simp [hs]
      | false =>
          simp only [hs, if_false, startupOk]
          simp only [pyFalsyStr, beq_eq_false_iff_ne] at hs
          simp [hs]

end AgentsSDK
